import Mathlib

/-!
Verification of the `blog` asynchronous logging engine
(`internal/logger`, `internal/config`, `internal/level`,
`internal/utils/strutil` of github.com/Data-Corruption/blog/v3).

The Go code is shallowly embedded: pure functions become Lean functions,
the logger's mutable fields become an explicit `LoggerState`, the file
system becomes an association list from paths to contents, and the
fallible OS primitives (open/stat/write/rename, crypto/rand.Read) are
parametrised by explicit fault injections so that every error branch of
the Go code is reachable in the model.
-/

set_option autoImplicit false

namespace Blog

/-! ## Severity levels — internal/level/level.go -/

/-- `type Level int` with the `iota` constants
`NONE, ERROR, WARN, INFO, DEBUG, FATAL` (values 0..5). -/
inductive Level where
  | NONE
  | ERROR
  | WARN
  | INFO
  | DEBUG
  | FATAL
deriving DecidableEq

/-- The numeric (`iota`) value of a level; Go compares levels with `>` on
these `int` values (`m.level > *l.config.Level` in `handleMessage`). -/
def levelIdx : Level → Nat
  | .NONE => 0
  | .ERROR => 1
  | .WARN => 2
  | .INFO => 3
  | .DEBUG => 4
  | .FATAL => 5

/-- `Level.String` from internal/level/level.go. The Go default case `"?"`
is unreachable for the six enum constants modelled here. -/
def levelToString : Level → String
  | .NONE => "NONE"
  | .ERROR => "ERROR"
  | .WARN => "WARN"
  | .INFO => "INFO"
  | .DEBUG => "DEBUG"
  | .FATAL => "FATAL"

/-- `strings.ToUpper` on the characters of the string (Go upcases each
rune; `Char.toUpper` agrees with it on ASCII, which is all the parser
compares against). -/
def strToUpper (s : String) : String := String.mk (s.data.map Char.toUpper)

/-- `Level.FromString` from internal/level/level.go: case-insensitive parse,
`fmt.Errorf("blog: invalid log level")` for unrecognized text. -/
def levelFromString (s : String) : Except String Level :=
  match strToUpper s with
  | "NONE" => .ok .NONE
  | "ERROR" => .ok .ERROR
  | "WARN" => .ok .WARN
  | "INFO" => .ok .INFO
  | "DEBUG" => .ok .DEBUG
  | "FATAL" => .ok .FATAL
  | _ => .error "blog: invalid log level"

/-! ## String utilities — internal/utils/strutil/strutil.go -/

/-- `strutil.Pad`: pad `s` with trailing spaces to length `length`;
strings already at least that long are returned as-is. -/
def strutilPad (s : String) (length : Nat) : String :=
  if s.length < length then s ++ String.mk (List.replicate (length - s.length) ' ') else s

/-- The URL-safe base64 alphabet used by Go's `base64.URLEncoding`
(`A`..`Z`, `a`..`z`, `0`..`9`, `-`, `_`). -/
def base64urlAlphabet : List Char :=
  "ABCDEFGHIJKLMNOPQRSTUVWXYZabcdefghijklmnopqrstuvwxyz0123456789-_".toList

/-- The character for a 6-bit group. -/
def b64chr (n : Nat) : Char := base64urlAlphabet.getD n 'A'

/-- Go's `base64.URLEncoding.EncodeToString` on a byte list (bytes are
`Nat` values below 256; bit shifts are written as division/multiplication:
`b >> 2 = b / 4`, `(b & 3) << 4 = b % 4 * 16`, and so on). `URLEncoding`
uses `StdPadding`, so partial final groups are padded with `=`. -/
def base64urlEncodeChars : List Nat → List Char
  | [] => []
  | [b1] => [b64chr (b1 / 4), b64chr (b1 % 4 * 16), '=', '=']
  | [b1, b2] => [b64chr (b1 / 4), b64chr (b1 % 4 * 16 + b2 / 16), b64chr (b2 % 16 * 4), '=']
  | b1 :: b2 :: b3 :: rest =>
      b64chr (b1 / 4) :: b64chr (b1 % 4 * 16 + b2 / 16) ::
      b64chr (b2 % 16 * 4 + b3 / 64) :: b64chr (b3 % 64) :: base64urlEncodeChars rest

/-- `strutil.Random(length)` reads `length` random bytes and returns
`base64.URLEncoding.EncodeToString` of them; the random bytes are the
explicit argument here. -/
def randomString (bytes : List Nat) : String :=
  String.mk (base64urlEncodeChars bytes)

/-- Length of the encoding: Go's `base64.EncodedLen`, `((n+2)/3)*4`. -/
theorem base64urlEncodeChars_length :
    ∀ bs : List Nat, (base64urlEncodeChars bs).length = (bs.length + 2) / 3 * 4
  | [] => by simp [base64urlEncodeChars]
  | [_] => by simp [base64urlEncodeChars]
  | [_, _] => by simp [base64urlEncodeChars]
  | _ :: _ :: _ :: rest => by
      have ih := base64urlEncodeChars_length rest
      have hdiv : (rest.length + 2 + 3) / 3 = (rest.length + 2) / 3 + 1 :=
        Nat.add_div_right _ (by decide)
      simp only [base64urlEncodeChars, List.length_cons, ih]
      omega

theorem randomString_length (bytes : List Nat) :
    (randomString bytes).length = (bytes.length + 2) / 3 * 4 := by
  simpa [randomString, String.length] using base64urlEncodeChars_length bytes

/-! ## File-system model

The directory of log files is an association list from paths to file
contents. `os.Rename`, `os.OpenFile(..., O_CREATE, ...)`, `Stat` and
`Write` act on it; each fallible primitive takes an optional injected
fault so every error branch of the Go code is reachable. -/

/-- A snapshot of the log directory: path ↦ file contents. -/
abbrev FS := List (String × String)

def fsLookup : FS → String → Option String
  | [], _ => none
  | (q, v) :: rest, p => if q = p then some v else fsLookup rest p

def fsErase : FS → String → FS
  | [], _ => []
  | (q, v) :: rest, p => if q = p then fsErase rest p else (q, v) :: fsErase rest p

def fsInsert (fs : FS) (p v : String) : FS := (p, v) :: fsErase fs p

/-- Contents of file `p`, the empty string if it does not exist. -/
def fileContent (fs : FS) (p : String) : String := (fsLookup fs p).getD ""

theorem fsLookup_insert_self (fs : FS) (p v : String) :
    fsLookup (fsInsert fs p v) p = some v := by
  simp [fsInsert, fsLookup]

theorem fsLookup_erase_ne (fs : FS) (p q : String) (h : q ≠ p) :
    fsLookup (fsErase fs p) q = fsLookup fs q := by
  induction fs with
  | nil => rfl
  | cons kv rest ih =>
      obtain ⟨k, v⟩ := kv
      by_cases hk : k = p
      · subst hk
        simp [fsErase, fsLookup, ih, Ne.symm h]
      · simp only [fsErase, if_neg hk, fsLookup]
        by_cases hq : k = q <;> simp [hq, ih]

theorem fsLookup_insert_ne (fs : FS) (p v q : String) (h : q ≠ p) :
    fsLookup (fsInsert fs p v) q = fsLookup fs q := by
  simp [fsInsert, fsLookup, Ne.symm h, fsLookup_erase_ne fs p q h]

/-- `filepath.Join(dir, name)` for an already-clean directory path
without a trailing separator. -/
def joinPath (dir name : String) : String := dir ++ "/" ++ name

/-- `filepath.Clean`. Modelled as the identity on non-empty paths; the
only property the code relies on is that `Clean` never returns the empty
string (Go's `Clean("")` is `"."`). -/
def cleanPath (p : String) : String := if p = "" then "." else p

/-! ## Logger state — internal/logger/logger.go and internal/config/config.go

`Config` holds pointers; after `ApplyDefaults` all of them are non-nil,
but `handleMessage` still checks `l.config.Level == nil`, so the level is
kept as an `Option`. The console sink `ConsoleOut.L *log.Logger` is
modelled by the flag `consoleEnabled` (`L != nil`) plus the list
`consoleOut` of lines printed to the console so far. -/

structure LoggerState where
  level : Option Level
  maxBufferSizeBytes : Int
  maxFileSizeBytes : Int
  flushInterval : Int
  directoryPath : String
  consoleEnabled : Bool
  consoleOut : List String
  writeBuffer : String
deriving DecidableEq

/-- `fallbackToConsole` (filewriter.go:15-20): clear the directory path,
and install a default console logger when none is present (`consoleEnabled`
becomes true whether or not it already was). -/
def fallbackToConsole (s : LoggerState) : LoggerState :=
  { s with directoryPath := "", consoleEnabled := true }

/-- `setPath` (filewriter.go:23-43). `stat` is the `os.Stat` oracle:
`none` means stat failed (including non-existence), `some b` means the
path exists and `b` tells whether it is a directory. -/
def setPath (stat : String → Option Bool) (s : LoggerState) (path : String) :
    LoggerState × Option String :=
  if path = "" then (fallbackToConsole s, none)
  else
    let cleanedPath := cleanPath path
    match stat cleanedPath with
    | none => (fallbackToConsole s, some ("blog: failed to stat path: " ++ cleanedPath))
    | some false => (fallbackToConsole s, some ("blog: path is not a directory: " ++ cleanedPath))
    | some true => ({ s with directoryPath := cleanedPath }, none)

/-- The pointer fields of `config.Config` as passed to `NewLogger`
(`nil` = `none`); `ConsoleOut` is `none` for a nil pointer and
`some b` for `&ConsoleLogger{L: ...}` with `b = (L != nil)`. -/
structure InitConfig where
  level : Option Level
  maxBufferSizeBytes : Option Int
  maxFileSizeBytes : Option Int
  flushInterval : Option Int
  directoryPath : Option String
  consoleOut : Option Bool
deriving DecidableEq

/-- `Config.ApplyDefaults` (config.go:35-47) followed by the zero-valued
mutable fields of a fresh `Logger` (empty write buffer, no console output
yet). Defaults: INFO, 4 KB, 1 GB, 15 s, `"."`, disabled console. -/
def applyDefaults (cfg : InitConfig) : LoggerState :=
  { level := some (cfg.level.getD .INFO)
    maxBufferSizeBytes := cfg.maxBufferSizeBytes.getD 4096
    maxFileSizeBytes := cfg.maxFileSizeBytes.getD (1024 * 1024 * 1024)
    flushInterval := cfg.flushInterval.getD 15
    directoryPath := cfg.directoryPath.getD "."
    consoleEnabled := cfg.consoleOut.getD false
    consoleOut := []
    writeBuffer := "" }

/-- `NewLogger` (logger.go:65-92): apply defaults, then `setPath` on the
configured directory; a `setPath` error is returned to the caller and no
logger is produced. -/
def NewLogger (stat : String → Option Bool) (cfg : InitConfig) :
    Except String LoggerState :=
  let s0 := applyDefaults cfg
  match setPath stat s0 s0.directoryPath with
  | (_, some e) => .error e
  | (s1, none) => .ok s1

/-- A partial configuration update (`config.Config` sent to
`setConfigChan`; nil fields are ignored). -/
structure ConfigUpdate where
  level : Option Level
  maxBufferSizeBytes : Option Int
  maxFileSizeBytes : Option Int
  flushInterval : Option Int
  directoryPath : Option String
  consoleOut : Option Bool
deriving DecidableEq

/-- `utils.CopyIfNotNil` (utils.go): keep `dst` unless `src` is non-nil. -/
def copyIfNotNil {α : Type} (dst : α) (src : Option α) : α := src.getD dst

/-- The `case cfg := <-l.setConfigChan` arm of `run` (logger.go:265-278):
non-nil scalar fields are copied, a non-nil `DirectoryPath` re-invokes
`setPath` with the error discarded, and a non-nil `ConsoleOut` replaces
the sink last. -/
def handleSetConfig (stat : String → Option Bool) (s : LoggerState)
    (cfg : ConfigUpdate) : LoggerState :=
  let s1 := { s with
    level := match cfg.level with | some v => some v | none => s.level
    maxBufferSizeBytes := copyIfNotNil s.maxBufferSizeBytes cfg.maxBufferSizeBytes
    maxFileSizeBytes := copyIfNotNil s.maxFileSizeBytes cfg.maxFileSizeBytes
    flushInterval := copyIfNotNil s.flushInterval cfg.flushInterval }
  let s2 := match cfg.directoryPath with
    | some p => (setPath stat s1 p).1
    | none => s1
  match cfg.consoleOut with
  | some b => { s2 with consoleEnabled := b }
  | none => s2

/-- What a caller of `UpdateConfig` (logger.go:148-150) observes: the Go
method sends the update on `setConfigChan` and returns no value, so the
error component visible to the updating caller is always `none` — the
`setPath` error inside the run loop (logger.go:273-275) is discarded. -/
def updateConfig (stat : String → Option Bool) (s : LoggerState)
    (cfg : ConfigUpdate) : LoggerState × Option String :=
  (handleSetConfig stat s cfg, none)

/-! ## The buffered file writer — internal/logger/filewriter.go -/

/-- Injected faults for one `writeIfUnderMaxFileSize` call: the open,
stat and write steps may each fail with the given error text. -/
structure WriteFaults where
  openErr : Option String
  statErr : Option String
  writeErr : Option String
deriving DecidableEq

/-- Injected faults for one `flush`: faults for the first write attempt,
for `strutil.Random` inside `rotatedFilename`, for `os.Rename`, and for
the post-rotation write attempt. -/
structure FlushFaults where
  w1 : WriteFaults
  randErr : Option String
  renameErr : Option String
  w2 : WriteFaults
deriving DecidableEq

def noWriteFaults : WriteFaults := ⟨none, none, none⟩

def noFlushFaults : FlushFaults := ⟨noWriteFaults, none, none, noWriteFaults⟩

/-- Result of `writeIfUnderMaxFileSize`: the Go `(bool, error)` pair plus
the file system, the write buffer, and the OS calls performed. -/
structure WriteResult where
  overflow : Bool
  err : Option String
  fs : FS
  buffer : String
  ops : List String
deriving DecidableEq

/-- The `O_CREATE` effect of `os.OpenFile`: an absent file comes into
existence empty, an existing one is untouched. -/
def fsCreate (fs : FS) (p : String) : FS :=
  match fsLookup fs p with
  | some _ => fs
  | none => fsInsert fs p ""

/-- `writeIfUnderMaxFileSize` (filewriter.go:113-136): open `latest` with
`O_APPEND|O_CREATE|O_WRONLY` (creating an empty file when absent), stat
it, report overflow without writing when `size >= maxFile`, otherwise
append the whole buffer and reset it. Every error leaves the buffer and
the file contents untouched. -/
def writeIfUnderMaxFileSize (wf : WriteFaults) (latest : String)
    (maxFile : Int) (fs : FS) (buffer : String) : WriteResult :=
  match wf.openErr with
  | some e => ⟨false, some ("failed to open log file: " ++ e), fs, buffer, ["open"]⟩
  | none =>
    let fs1 := fsCreate fs latest
    match wf.statErr with
    | some e => ⟨false, some ("failed to stat log file: " ++ e), fs1, buffer, ["open", "stat"]⟩
    | none =>
      if ((fileContent fs1 latest).length : Int) ≥ maxFile then
        ⟨true, none, fs1, buffer, ["open", "stat"]⟩
      else
        match wf.writeErr with
        | some e =>
            ⟨false, some ("failed to write to log file: " ++ e), fs1, buffer,
              ["open", "stat", "write"]⟩
        | none =>
            ⟨false, none, fsInsert fs1 latest (fileContent fs1 latest ++ buffer), "",
              ["open", "stat", "write"]⟩

/-- `rotatedFilename` (filewriter.go:51-64): the target is
`<dir>/<timestamp>.log`; when a file of that exact name already exists,
a random suffix from `strutil.Random(8)` is appended instead
(`<timestamp>_<suffix>.log`). `now` is the formatted timestamp
`2006-01-02_15-04-05`; `rnd` are the bytes `crypto/rand` produced. -/
def rotatedFilename (now : String) (rnd : List Nat) (randErr : Option String)
    (dir : String) (fs : FS) : Except String String :=
  let path := joinPath dir (now ++ ".log")
  match fsLookup fs path with
  | some _ =>
      match randErr with
      | some e => .error e
      | none => .ok (joinPath dir (now ++ "_" ++ randomString rnd ++ ".log"))
  | none => .ok path

/-- Result of `rotateLogFile`: the Go error plus the file system, write
buffer and performed OS calls (rotation mutates the file system even when
a later step fails). -/
structure RotateResult where
  err : Option String
  fs : FS
  buffer : String
  ops : List String
deriving DecidableEq

/-- `rotateLogFile` (filewriter.go:76-93): pick the rotated name, rename
`latest.log` to it, then write the buffer into a fresh `latest.log` via
`writeIfUnderMaxFileSize`; if that still reports overflow the error
`"rotated log file is still too large"` is returned without retrying. -/
def rotateLogFile (ff : FlushFaults) (now : String) (rnd : List Nat)
    (dir : String) (maxFile : Int) (fs : FS) (buffer : String) : RotateResult :=
  let latest := joinPath dir "latest.log"
  match rotatedFilename now rnd ff.randErr dir fs with
  | .error e => ⟨some ("failed to get rotated filename: " ++ e), fs, buffer, []⟩
  | .ok path =>
    match ff.renameErr with
    | some e => ⟨some ("failed to rename latest.log: " ++ e), fs, buffer, ["rename"]⟩
    | none =>
      match fsLookup fs latest with
      | none => ⟨some "failed to rename latest.log: no such file or directory", fs, buffer, ["rename"]⟩
      | some old =>
        let fs2 := fsInsert (fsErase fs latest) path old
        let w := writeIfUnderMaxFileSize ff.w2 latest maxFile fs2 buffer
        match w.err with
        | some e => ⟨some ("failed to write to latest.log: " ++ e), w.fs, w.buffer, "rename" :: w.ops⟩
        | none =>
          if w.overflow then
            ⟨some "rotated log file is still too large", w.fs, w.buffer, "rename" :: w.ops⟩
          else ⟨none, w.fs, w.buffer, "rename" :: w.ops⟩

/-- Result of one `flush`: file system, logger state, the error passed to
`handleFlushError` (`none` when no failure occurred), and the OS calls
performed. -/
structure FlushResult where
  fs : FS
  st : LoggerState
  err : Option String
  ops : List String
deriving DecidableEq

/-- `handleFlushError` (filewriter.go:68-74): fall back to console,
print `"failed to write to log file: <err>"` and the remaining write
buffer to the console sink, then reset the buffer. -/
def handleFlushError (e : String) (fs : FS) (s : LoggerState)
    (ops : List String) : FlushResult :=
  ⟨fs,
   { s with directoryPath := ""
            consoleEnabled := true
            consoleOut := s.consoleOut ++ ["failed to write to log file: " ++ e, s.writeBuffer]
            writeBuffer := "" },
   some e, ops⟩

/-- `flush` (filewriter.go:96-109): no-op when the buffer is empty or
file output is disabled; otherwise try the direct write, rotate on
overflow, and route any error through `handleFlushError`. -/
def flush (ff : FlushFaults) (now : String) (rnd : List Nat) (fs : FS)
    (s : LoggerState) : FlushResult :=
  if s.writeBuffer = "" ∨ s.directoryPath = "" then ⟨fs, s, none, []⟩
  else
    let latest := joinPath s.directoryPath "latest.log"
    let w := writeIfUnderMaxFileSize ff.w1 latest s.maxFileSizeBytes fs s.writeBuffer
    match w.err with
    | some e =>
        handleFlushError ("blog: failed to write to log file: " ++ e) w.fs
          { s with writeBuffer := w.buffer } w.ops
    | none =>
      if w.overflow then
        let r := rotateLogFile ff now rnd s.directoryPath s.maxFileSizeBytes w.fs s.writeBuffer
        match r.err with
        | some e =>
            handleFlushError ("blog: failed to rotate log file: " ++ e) r.fs
              { s with writeBuffer := r.buffer } (w.ops ++ r.ops)
        | none => ⟨r.fs, { s with writeBuffer := r.buffer }, none, w.ops ++ r.ops⟩
      else ⟨w.fs, { s with writeBuffer := w.buffer }, none, w.ops⟩

/-! ## Messages and the coordinator — internal/logger/logger.go -/

/-- `LogMessage` (logger.go:47-53). `stamp` stands for the formatted
`m.timestamp.Format("[2006-01-02,15-04-05,")` string. -/
structure LogMessage where
  level : Level
  exitCode : Int
  stamp : String
  location : String
  content : String
deriving DecidableEq

/-- `qM` (logger.go:180-196): build a message; the source location is
captured only when `locationSkip != -1`, the severity is FATAL, ERROR or
DEBUG, and `runtime.Caller` resolves a frame (`frame` is that oracle,
giving the base file name and line). -/
def qM (locationSkip : Int) (frame : Option (String × Nat)) (lvl : Level)
    (exitCode : Int) (stamp content : String) : LogMessage :=
  let location :=
    if locationSkip ≠ -1 then
      if lvl = .FATAL ∨ lvl = .ERROR ∨ lvl = .DEBUG then
        match frame with
        | some (file, line) => file ++ ":" ++ toString line
        | none => ""
      else ""
    else ""
  ⟨lvl, exitCode, stamp, location, content⟩

/-- The level filter of `handleMessage` (logger.go:200-205): drop when
the configured level is nil or NONE, or when `m.level > *l.config.Level`
on the numeric values; emit otherwise. -/
def shouldEmit (cfgLevel : Option Level) (m : Level) : Bool :=
  match cfgLevel with
  | none => false
  | some c => if c = Level.NONE then false else decide (levelIdx m ≤ levelIdx c)

/-- Result of `handleMessage`: file system, logger state, and
`some code` when the coordinator called `os.Exit(code)` (FATAL path). -/
structure HMResult where
  fs : FS
  st : LoggerState
  exited : Option Int
deriving DecidableEq

/-- `handleMessage` (logger.go:198-230): filter, format (pad the
timestamp/level segment to 28 columns, insert the location), append to
the write buffer and auto-flush at `MaxBufferSizeBytes` when file output
is enabled, print to the console sink when enabled, and for FATAL flush
and exit the process. `ff1`/`ff2` are the fault injections for the
auto-flush and the fatal flush. -/
def handleMessage (ff1 ff2 : FlushFaults) (now : String) (rnd : List Nat)
    (fs : FS) (s : LoggerState) (m : LogMessage) : HMResult :=
  if shouldEmit s.level m.level then
    let pfx0 := strutilPad (m.stamp ++ levelToString m.level ++ "] ") 28
    let pfx := if m.location ≠ "" then pfx0 ++ "[" ++ m.location ++ "] " else pfx0
    let line := pfx ++ m.content ++ "\n"
    let fsst :=
      if s.directoryPath ≠ "" then
        let s' := { s with writeBuffer := s.writeBuffer ++ line }
        if (s'.writeBuffer.length : Int) ≥ s'.maxBufferSizeBytes then
          let r := flush ff1 now rnd fs s'
          (r.fs, r.st)
        else (fs, s')
      else (fs, s)
    let s2 :=
      if fsst.2.consoleEnabled then
        { fsst.2 with consoleOut := fsst.2.consoleOut ++ [line] }
      else fsst.2
    if m.level = .FATAL then
      let r := flush ff2 now rnd fsst.1 s2
      ⟨r.fs, r.st, some m.exitCode⟩
    else ⟨fsst.1, s2, none⟩
  else ⟨fs, s, none⟩

/-- One observable step of the caller-side `Fatal` method. -/
inductive FatalStep where
  | enqueue (m : LogMessage)
  | sleep (duration : Int)
  | print (line : String)
  | exitProcess (code : Int)
deriving DecidableEq

/-- `Fatal` (logger.go:165-170) as the sequence of caller-side actions it
performs: enqueue the FATAL message via `qM`, `time.Sleep(timeout)` (a
sleep of exactly the given duration — there is no special case for 0),
print the failure line, and `os.Exit(exitCode)`. -/
def fatalSteps (locationSkip : Int) (frame : Option (String × Nat))
    (exitCode : Int) (timeout : Int) (stamp msg : String) : List FatalStep :=
  [.enqueue (qM locationSkip frame .FATAL exitCode stamp msg),
   .sleep timeout,
   .print ("Fatal message failed to log in time: " ++ msg),
   .exitProcess exitCode]

/-- `Shutdown` (logger.go:97-111) special-cases a zero timeout: it blocks
on the done channel with no `time.After`, i.e. waits indefinitely;
a positive timeout bounds the wait. Recorded here for contrast with
`fatalSteps`, which has no such case. -/
def shutdownWaitsIndefinitely (timeout : Int) : Bool := timeout = 0

/-! ## Auxiliary lemmas -/

theorem str_empty_append (s : String) : "" ++ s = s := by
  cases s
  rfl

theorem fsLookup_erase_self (fs : FS) (p : String) : fsLookup (fsErase fs p) p = none := by
  induction fs with
  | nil => rfl
  | cons kv rest ih =>
      obtain ⟨k, v⟩ := kv
      by_cases hk : k = p
      · simp [fsErase, hk, ih]
      · simp [fsErase, hk, fsLookup, ih]

theorem fileContent_insert_self (fs : FS) (p v : String) :
    fileContent (fsInsert fs p v) p = v := by
  simp [fileContent, fsLookup_insert_self]

/-- Opening with `O_CREATE` does not change the observed contents. -/
theorem fileContent_create (fs : FS) (p : String) :
    fileContent (fsCreate fs p) p = fileContent fs p := by
  unfold fsCreate
  rcases h : fsLookup fs p with _ | v <;> simp [fileContent, h, fsLookup_insert_self]

theorem joinPath_inj_right (d a b : String) (h : a ≠ b) : joinPath d a ≠ joinPath d b := by
  intro hc
  apply h
  have hdata := congrArg String.data hc
  simp only [joinPath, String.data_append] at hdata
  have := List.append_cancel_left hdata
  exact String.ext this

/-! ## Claim C1 — the level filter -/

/-- C1, counterexample. The claim states that a fatal event is emitted
regardless of the configured minimum, and that the disable-all minimum
NONE still emits fatal. In `handleMessage` (logger.go:200-205) there is
no fatal exemption: with minimum INFO a FATAL event is dropped
(`levelIdx FATAL = 5 > 3`), and with minimum NONE everything, fatal
included, is dropped by the early return. -/
theorem levelFilter_fatal_dropped_counterexample :
    shouldEmit (some Level.INFO) Level.FATAL = false ∧
    shouldEmit (some Level.NONE) Level.FATAL = false := by decide

/-- C1, amended. An event of severity `s` is emitted iff the configured
minimum is a non-nil level `c` different from NONE and
`levelIdx s ≤ levelIdx c`; fatal gets no special treatment (it passes
only when the minimum is FATAL, and the NONE sentinel emits nothing at
all). A non-passing message is dropped silently: `handleMessage` returns
with the file system, the logger state and the exit status unchanged. -/
theorem levelFilter_amended (ff1 ff2 : FlushFaults) (now : String)
    (rnd : List Nat) (fs : FS) (s : LoggerState) (m : LogMessage)
    (h : shouldEmit s.level m.level = false) :
    handleMessage ff1 ff2 now rnd fs s m = ⟨fs, s, none⟩ ∧
    ∀ (c : Option Level) (lv : Level),
      shouldEmit c lv = true ↔
        ∃ cl, c = some cl ∧ cl ≠ Level.NONE ∧ levelIdx lv ≤ levelIdx cl := by
  constructor
  · simp [handleMessage, h]
  · intro c lv
    cases c with
    | none => simp [shouldEmit]
    | some cl =>
        by_cases hcl : cl = Level.NONE
        · subst hcl; simp [shouldEmit]
        · simp [shouldEmit, hcl]

def w1state : LoggerState :=
  ⟨some .WARN, 4096, 1024, 15, "", true, [], ""⟩

def w1msg : LogMessage := ⟨.INFO, 0, "[2025-01-01,00-00-00,", "", "hello"⟩

theorem levelFilter_amended_witness :
    shouldEmit w1state.level w1msg.level = false ∧
    (handleMessage noFlushFaults noFlushFaults "t" [] [] w1state w1msg = ⟨[], w1state, none⟩ ∧
     ∀ (c : Option Level) (lv : Level),
       shouldEmit c lv = true ↔
         ∃ cl, c = some cl ∧ cl ≠ Level.NONE ∧ levelIdx lv ≤ levelIdx cl) :=
  ⟨by decide,
   levelFilter_amended noFlushFaults noFlushFaults "t" [] [] w1state w1msg (by decide)⟩

/-! ## Claim C2 — Fatal always exits, but a zero timeout is not an
indefinite wait -/

/-- C2. The caller side of `Fatal` always ends in `os.Exit` (last step of
the trace, for every exit code and timeout), but its wait is
`time.Sleep(timeout)` with no special case: at the failing input
`timeout = 0` the trace sleeps for 0 — the caller exits immediately
instead of waiting indefinitely for the flush, contradicting the doc
comment "A timeout of 0 means block indefinitely" (logger.go:163-170).
`Shutdown` implements the documented convention, for contrast. -/
theorem fatal_zero_timeout_exits_immediately :
    fatalSteps 2 none 1 0 "[2025-01-01,00-00-00," "boom" =
      [FatalStep.enqueue (qM 2 none Level.FATAL 1 "[2025-01-01,00-00-00," "boom"),
       FatalStep.sleep 0,
       FatalStep.print "Fatal message failed to log in time: boom",
       FatalStep.exitProcess 1] ∧
    (∀ (sk : Int) (fr : Option (String × Nat)) (ec t : Int) (ts msg : String),
      (fatalSteps sk fr ec t ts msg).getLast? = some (FatalStep.exitProcess ec)) ∧
    shutdownWaitsIndefinitely 0 = true := by
  refine ⟨rfl, ?_, by decide⟩
  intro sk fr ec t ts msg
  rfl

/-! ## Claim C3 — the collision suffix of a rotated file name -/

def eightZeroBytes : List Nat := List.replicate 8 0

/-- C3, counterexample. The claim says the random suffix has exactly 8
characters. `strutil.Random(8)` base64url-encodes 8 random bytes, and
the padded encoding of 8 bytes has 12 characters, never 8 — here on the
concrete byte string of eight zero bytes. -/
theorem rotatedSuffix_length_counterexample :
    randomString eightZeroBytes = "AAAAAAAAAAA=" ∧
    (randomString eightZeroBytes).length = 12 ∧
    ¬ (randomString eightZeroBytes).length = 8 := by decide

/-- C3, amended. On a same-second collision `rotatedFilename` produces
`<timestamp>_<suffix>.log` where the suffix is the padded base64 URL
encoding of 8 random bytes — exactly 12 characters, not 8. -/
theorem rotatedSuffix_amended (now dir c : String) (rnd : List Nat) (fs : FS)
    (hcol : fsLookup fs (joinPath dir (now ++ ".log")) = some c)
    (hlen : rnd.length = 8) :
    rotatedFilename now rnd none dir fs =
      .ok (joinPath dir (now ++ "_" ++ randomString rnd ++ ".log")) ∧
    (randomString rnd).length = 12 := by
  refine ⟨?_, ?_⟩
  · simp [rotatedFilename, hcol]
  · rw [randomString_length, hlen]

def w3fs : FS := [("d/2025-01-01_00-00-00.log", "x")]

theorem rotatedSuffix_amended_witness :
    fsLookup w3fs (joinPath "d" ("2025-01-01_00-00-00" ++ ".log")) = some "x" ∧
    List.length eightZeroBytes = 8 ∧
    (rotatedFilename "2025-01-01_00-00-00" eightZeroBytes none "d" w3fs =
      .ok (joinPath "d" ("2025-01-01_00-00-00" ++ "_" ++ randomString eightZeroBytes ++ ".log")) ∧
     (randomString eightZeroBytes).length = 12) :=
  ⟨by decide, by decide,
   rotatedSuffix_amended "2025-01-01_00-00-00" "d" "x" eightZeroBytes w3fs
     (by decide) (by decide)⟩

/-! ## Claim C10 — when a message carries a source location -/

/-- C10. A message built by `qM` carries a non-empty location exactly
when location capture is enabled (`locationSkip ≠ -1`), the caller frame
resolved, and the severity is ERROR, DEBUG or FATAL; in particular INFO
and WARN messages never carry one. -/
theorem location_capture_spec (sk : Int) (frame : Option (String × Nat))
    (lvl : Level) (ec : Int) (ts ct : String) :
    (qM sk frame lvl ec ts ct).location ≠ "" ↔
      sk ≠ -1 ∧ frame.isSome ∧ (lvl = .ERROR ∨ lvl = .DEBUG ∨ lvl = .FATAL) := by
  unfold qM
  by_cases h1 : sk = -1
  · subst h1; simp
  · by_cases h2 : lvl = Level.FATAL ∨ lvl = Level.ERROR ∨ lvl = Level.DEBUG
    · cases frame with
      | none => simp [h1, h2]
      | some fl =>
          obtain ⟨f, n⟩ := fl
          have hne : f ++ ":" ++ toString n ≠ "" := by
            intro hc
            have hlen := congrArg String.length hc
            rw [String.length_append, String.length_append] at hlen
            have h3 : ":".length = 1 := rfl
            have h4 : "".length = 0 := rfl
            rw [h3, h4] at hlen
            omega
          simp only [h1, h2, if_true, if_pos, ne_eq, if_neg, not_false_iff]
          simp [hne, h1]
          tauto
    · simp [h1, h2]
      tauto

/-! ## Claim C4 — synchronous reporting of configuration errors -/

/-- An `os.Stat` oracle that fails on every path. -/
def statFail : String → Option Bool := fun _ => none

/-- An `os.Stat` oracle under which every path is an existing directory. -/
def statDirs : String → Option Bool := fun _ => some true

def w4state : LoggerState := ⟨some .INFO, 4096, 1024, 15, "logs", false, [], ""⟩

def w4update : ConfigUpdate := ⟨none, none, none, none, some "bad", none⟩

/-- C4, counterexample. An invalid directory path delivered through the
config-update command produces a configuration error inside the run loop
(`setPath` returns it), but the caller of `UpdateConfig` receives no
error result: the Go method returns nothing and the run loop discards
the error, so the caller-visible error component is `none`. -/
theorem configError_update_not_reported_counterexample :
    (setPath statFail w4state "bad").2 = some "blog: failed to stat path: bad" ∧
    (updateConfig statFail w4state w4update).2 = none := by
  constructor
  · rfl
  · rfl

/-- C4, amended. Configuration errors are reported synchronously for the
construction path (`NewLogger` returns the `setPath` error) and for the
severity parser (`FromString` returns a parse error for unrecognized
text), but not for the config-update command: the updating caller always
observes `none`, whatever error `setPath` produced inside the run loop. -/
theorem configError_reporting_amended (stat : String → Option Bool)
    (cfg : InitConfig) (s : LoggerState) (upd : ConfigUpdate) (str e : String)
    (hc : (setPath stat (applyDefaults cfg) (applyDefaults cfg).directoryPath).2 = some e)
    (hs : strToUpper str ≠ "NONE" ∧ strToUpper str ≠ "ERROR" ∧ strToUpper str ≠ "WARN" ∧
          strToUpper str ≠ "INFO" ∧ strToUpper str ≠ "DEBUG" ∧ strToUpper str ≠ "FATAL") :
    NewLogger stat cfg = .error e ∧
    levelFromString str = .error "blog: invalid log level" ∧
    (updateConfig stat s upd).2 = none := by
  refine ⟨?_, ?_, rfl⟩
  · simp only [NewLogger]
    rcases hsp : setPath stat (applyDefaults cfg) (applyDefaults cfg).directoryPath with ⟨s1, oe⟩
    rw [hsp] at hc
    simp only at hc
    rw [hc]
  · obtain ⟨h1, h2, h3, h4, h5, h6⟩ := hs
    unfold levelFromString
    split <;> simp_all

def w4cfg : InitConfig := ⟨some .INFO, none, none, none, some "bad", some false⟩

theorem configError_reporting_amended_witness :
    (setPath statFail (applyDefaults w4cfg) (applyDefaults w4cfg).directoryPath).2 =
      some "blog: failed to stat path: bad" ∧
    (strToUpper "bogus" ≠ "NONE" ∧ strToUpper "bogus" ≠ "ERROR" ∧ strToUpper "bogus" ≠ "WARN" ∧
     strToUpper "bogus" ≠ "INFO" ∧ strToUpper "bogus" ≠ "DEBUG" ∧ strToUpper "bogus" ≠ "FATAL") ∧
    (NewLogger statFail w4cfg = .error "blog: failed to stat path: bad" ∧
     levelFromString "bogus" = .error "blog: invalid log level" ∧
     (updateConfig statFail w4state w4update).2 = none) :=
  ⟨by decide, by decide,
   configError_reporting_amended statFail w4cfg w4state w4update "bogus"
     "blog: failed to stat path: bad" (by decide) (by decide)⟩

/-! ## Claim C9 — path-setting operations and the console invariant -/

/-- After `setPath`, an empty directory path implies the console sink is
installed: every failure branch goes through `fallbackToConsole`, and the
success branch stores `filepath.Clean` of a non-empty path, which is
never the empty string. -/
theorem setPath_invariant (stat : String → Option Bool) (s : LoggerState)
    (path : String) (hd : (setPath stat s path).1.directoryPath = "") :
    (setPath stat s path).1.consoleEnabled = true := by
  by_cases hp : path = ""
  · simp [setPath, hp, fallbackToConsole]
  · simp only [setPath, if_neg hp] at hd ⊢
    rcases hst : stat (cleanPath path) with _ | b
    · simp [hst, fallbackToConsole]
    · cases b
      · simp [hst, fallbackToConsole]
      · rw [hst] at hd
        simp only at hd
        exact absurd hd (by simp [cleanPath, hp])

def w9state : LoggerState := ⟨some .INFO, 4096, 1024, 15, "logs", true, [], ""⟩

def w9update : ConfigUpdate := ⟨none, none, none, none, some "", some false⟩

/-- C9, counterexample. The claim asserts that no path-setting call ever
leaves both file output and console output disabled. A single
config-update command that sets the directory path to the empty string
and carries a console replacement with a nil writer does exactly that:
the run loop applies the path first (installing the fallback console)
and the console replacement afterwards, ending with an empty directory
path and a disabled console sink. -/
theorem pathInvariant_combined_update_counterexample :
    (handleSetConfig statFail w9state w9update).directoryPath = "" ∧
    (handleSetConfig statFail w9state w9update).consoleEnabled = false := by
  constructor
  · rfl
  · rfl

/-- C9, amended. The invariant dirPath = "" → console installed holds
after `setPath` itself (construction, explicit empty path, invalid
path), after `fallbackToConsole`, after a successful `NewLogger`, and
after any config-update command that does not also replace the console
sink; the exception forced by the counterexample is an update that both
sets the path and carries a console replacement, because the console
field is applied after the path field. -/
theorem pathInvariant_amended (stat : String → Option Bool) (s : LoggerState)
    (path : String) (upd : ConfigUpdate) (cfg : InitConfig) (s' : LoggerState)
    (hupd : upd.consoleOut = none)
    (hinv : s.directoryPath = "" → s.consoleEnabled = true)
    (hok : NewLogger stat cfg = .ok s') :
    ((setPath stat s path).1.directoryPath = "" →
      (setPath stat s path).1.consoleEnabled = true) ∧
    ((fallbackToConsole s).directoryPath = "" ∧ (fallbackToConsole s).consoleEnabled = true) ∧
    ((handleSetConfig stat s upd).directoryPath = "" →
      (handleSetConfig stat s upd).consoleEnabled = true) ∧
    (s'.directoryPath = "" → s'.consoleEnabled = true) := by
  refine ⟨setPath_invariant stat s path, ⟨rfl, rfl⟩, ?_, ?_⟩
  · intro hd
    simp only [handleSetConfig, hupd] at hd ⊢
    rcases hp : upd.directoryPath with _ | p
    · simp only [hp] at hd ⊢
      exact hinv hd
    · simp only [hp] at hd ⊢
      exact setPath_invariant stat _ p hd
  · intro hd
    have h1 := setPath_invariant stat (applyDefaults cfg) (applyDefaults cfg).directoryPath
    simp only [NewLogger] at hok
    rcases hsp : setPath stat (applyDefaults cfg) (applyDefaults cfg).directoryPath with ⟨s1, oe⟩
    rw [hsp] at hok h1
    cases oe with
    | some e => simp at hok
    | none =>
        simp only at hok h1
        cases hok
        exact h1 hd

/-! ## Write and rotation lemmas shared by the flush claims -/

/-- Case analysis of one write attempt: either it succeeded, appended the
whole buffer to the file and cleared the buffer, or it failed or reported
overflow, leaving the buffer and the observed file contents untouched. -/
theorem write_cases (wf : WriteFaults) (p : String) (mx : Int) (fs : FS) (b : String) :
    ((writeIfUnderMaxFileSize wf p mx fs b).err = none ∧
      (writeIfUnderMaxFileSize wf p mx fs b).overflow = false ∧
      (writeIfUnderMaxFileSize wf p mx fs b).buffer = "" ∧
      fileContent (writeIfUnderMaxFileSize wf p mx fs b).fs p = fileContent fs p ++ b) ∨
    (((writeIfUnderMaxFileSize wf p mx fs b).err.isSome ∨
        (writeIfUnderMaxFileSize wf p mx fs b).overflow = true) ∧
      (writeIfUnderMaxFileSize wf p mx fs b).buffer = b ∧
      fileContent (writeIfUnderMaxFileSize wf p mx fs b).fs p = fileContent fs p) := by
  rcases wf with ⟨oe, se, we⟩
  cases oe with
  | some e => right; simp [writeIfUnderMaxFileSize]
  | none =>
    cases se with
    | some e => right; simp [writeIfUnderMaxFileSize, fileContent_create]
    | none =>
      by_cases hsz : ((fileContent (fsCreate fs p) p).length : Int) ≥ mx
      · right
        simp only [writeIfUnderMaxFileSize, if_pos hsz]
        simp [fileContent_create]
      · cases we with
        | some e =>
            right
            simp only [writeIfUnderMaxFileSize, if_neg hsz]
            simp [fileContent_create]
        | none =>
            left
            simp only [writeIfUnderMaxFileSize, if_neg hsz]
            simp [fileContent_insert_self, fileContent_create]

theorem write_err_keeps_buffer (wf : WriteFaults) (p : String) (mx : Int)
    (fs : FS) (b : String)
    (h : (writeIfUnderMaxFileSize wf p mx fs b).err.isSome ∨
         (writeIfUnderMaxFileSize wf p mx fs b).overflow = true) :
    (writeIfUnderMaxFileSize wf p mx fs b).buffer = b := by
  rcases write_cases wf p mx fs b with ⟨he, ho, _, _⟩ | ⟨_, hb, _⟩
  · rcases h with h | h
    · rw [he] at h; simp at h
    · rw [ho] at h; simp at h
  · exact hb

theorem rotate_buffer_cases (ff : FlushFaults) (now : String) (rnd : List Nat)
    (dir : String) (mx : Int) (fs : FS) (b : String) :
    ((rotateLogFile ff now rnd dir mx fs b).err = none ∧
      (rotateLogFile ff now rnd dir mx fs b).buffer = "") ∨
    ((rotateLogFile ff now rnd dir mx fs b).err.isSome ∧
      (rotateLogFile ff now rnd dir mx fs b).buffer = b) := by
  simp only [rotateLogFile]
  rcases rotatedFilename now rnd ff.randErr dir fs with e | path
  · right; simp
  · rcases ff.renameErr with _ | e
    · rcases hl : fsLookup fs (joinPath dir "latest.log") with _ | old
      · right; simp
      · simp only
        rcases hw : (writeIfUnderMaxFileSize ff.w2 (joinPath dir "latest.log") mx
            (fsInsert (fsErase fs (joinPath dir "latest.log")) path old) b).err with _ | e2
        · by_cases ho : (writeIfUnderMaxFileSize ff.w2 (joinPath dir "latest.log") mx
              (fsInsert (fsErase fs (joinPath dir "latest.log")) path old) b).overflow = true
          · right
            simp only [hw, ho, if_true]
            exact ⟨by simp, write_err_keeps_buffer _ _ _ _ _ (Or.inr ho)⟩
          · left
            simp only [hw, if_neg ho]
            rcases write_cases ff.w2 (joinPath dir "latest.log") mx
                (fsInsert (fsErase fs (joinPath dir "latest.log")) path old) b with
              ⟨_, _, hb, _⟩ | ⟨hor, _, _⟩
            · exact ⟨by simp, hb⟩
            · rcases hor with hor | hor
              · rw [hw] at hor; simp at hor
              · exact absurd hor ho
        · right
          simp only [hw]
          exact ⟨by simp, write_err_keeps_buffer _ _ _ _ _ (Or.inl (by rw [hw]; rfl))⟩
    · right; simp

theorem fsLookup_create_self (fs : FS) (p : String) :
    fsLookup (fsCreate fs p) p = some (fileContent fs p) := by
  unfold fsCreate
  rcases h : fsLookup fs p with _ | v <;> simp [fileContent, h, fsLookup_insert_self]

/-- The rotated path `rotatedFilename` picks when `crypto/rand` does not
fail: the plain timestamped name, or the suffixed one on a collision. -/
def rotTarget (now : String) (rnd : List Nat) (dir : String) (fs : FS) : String :=
  match fsLookup fs (joinPath dir (now ++ ".log")) with
  | some _ => joinPath dir (now ++ "_" ++ randomString rnd ++ ".log")
  | none => joinPath dir (now ++ ".log")

theorem rotatedFilename_ok (now : String) (rnd : List Nat) (dir : String) (fs : FS) :
    rotatedFilename now rnd none dir fs = .ok (rotTarget now rnd dir fs) := by
  unfold rotatedFilename rotTarget
  rcases h : fsLookup fs (joinPath dir (now ++ ".log")) with _ | v <;> simp [h]

/-- A non-no-op flush always ends with an empty buffer, and a no-op
flush (empty buffer or disabled path) changes nothing at all. -/
theorem flush_clears_or_noop (ff : FlushFaults) (now : String) (rnd : List Nat)
    (fs : FS) (s : LoggerState) :
    (¬(s.writeBuffer = "" ∨ s.directoryPath = "") →
      (flush ff now rnd fs s).st.writeBuffer = "") ∧
    ((s.writeBuffer = "" ∨ s.directoryPath = "") →
      flush ff now rnd fs s = ⟨fs, s, none, []⟩) := by
  by_cases h0 : s.writeBuffer = "" ∨ s.directoryPath = ""
  · exact ⟨fun hc => absurd h0 hc, fun _ => by simp [flush, h0]⟩
  · refine ⟨fun _ => ?_, fun hc => absurd hc h0⟩
    simp only [flush, if_neg h0]
    set w := writeIfUnderMaxFileSize ff.w1 (joinPath s.directoryPath "latest.log")
      s.maxFileSizeBytes fs s.writeBuffer with hwdef
    rcases hw : w.err with _ | e
    · simp only [hw]
      by_cases ho : w.overflow = true
      · simp only [ho, if_true]
        set r := rotateLogFile ff now rnd s.directoryPath s.maxFileSizeBytes w.fs
          s.writeBuffer with hrdef
        rcases hr : r.err with _ | e2
        · simp only [hr]
          rcases rotate_buffer_cases ff now rnd s.directoryPath s.maxFileSizeBytes
              w.fs s.writeBuffer with ⟨_, hb⟩ | ⟨hsome, _⟩
          · rw [← hrdef] at hb; simp [hb]
          · rw [← hrdef] at hsome
            rw [hr] at hsome
            simp at hsome
        · simp only [hr]
          simp [handleFlushError]
      · simp only [if_neg ho]
        rcases write_cases ff.w1 (joinPath s.directoryPath "latest.log")
            s.maxFileSizeBytes fs s.writeBuffer with ⟨_, _, hb, _⟩ | ⟨hor, _, _⟩
        · rw [← hwdef] at hb; simp [hb]
        · rw [← hwdef] at hor
          rcases hor with hor | hor
          · rw [hw] at hor; simp at hor
          · exact absurd hor ho
    · simp only [hw]
      simp [handleFlushError]

/-! ## Claim C5 — flush is all-or-nothing for the write buffer -/

/-- C5. The file-write step of a flush either transfers the whole buffer
to the log file and clears it, or (on error or overflow) leaves both the
buffer and the observed file contents untouched; at the level of `flush`
the buffer afterwards is either empty or the whole state is unchanged
(no-op), and every non-no-op flush — in particular every successful one
— ends with a cleared buffer. The buffer is never partially consumed. -/
theorem flushAllOrNothing_spec (wf : WriteFaults) (p : String) (mx : Int)
    (fs0 : FS) (b : String) (ff : FlushFaults) (now : String) (rnd : List Nat)
    (fs : FS) (s : LoggerState) :
    ((writeIfUnderMaxFileSize wf p mx fs0 b).err = none ∧
        (writeIfUnderMaxFileSize wf p mx fs0 b).overflow = false →
      (writeIfUnderMaxFileSize wf p mx fs0 b).buffer = "" ∧
      fileContent (writeIfUnderMaxFileSize wf p mx fs0 b).fs p = fileContent fs0 p ++ b) ∧
    ((writeIfUnderMaxFileSize wf p mx fs0 b).err.isSome ∨
        (writeIfUnderMaxFileSize wf p mx fs0 b).overflow = true →
      (writeIfUnderMaxFileSize wf p mx fs0 b).buffer = b ∧
      fileContent (writeIfUnderMaxFileSize wf p mx fs0 b).fs p = fileContent fs0 p) ∧
    ((flush ff now rnd fs s).st.writeBuffer = "" ∨
      flush ff now rnd fs s = ⟨fs, s, none, []⟩) ∧
    (¬(s.writeBuffer = "" ∨ s.directoryPath = "") →
      (flush ff now rnd fs s).st.writeBuffer = "") := by
  refine ⟨?_, ?_, ?_, (flush_clears_or_noop ff now rnd fs s).1⟩
  · intro ⟨he, ho⟩
    rcases write_cases wf p mx fs0 b with ⟨_, _, hb, hc⟩ | ⟨hor, _, _⟩
    · exact ⟨hb, hc⟩
    · rcases hor with hor | hor
      · rw [he] at hor; simp at hor
      · rw [ho] at hor; simp at hor
  · intro hor
    rcases write_cases wf p mx fs0 b with ⟨he, ho, _, _⟩ | ⟨_, hb, hc⟩
    · rcases hor with hor | hor
      · rw [he] at hor; simp at hor
      · rw [ho] at hor; simp at hor
    · exact ⟨hb, hc⟩
  · by_cases h0 : s.writeBuffer = "" ∨ s.directoryPath = ""
    · exact Or.inr ((flush_clears_or_noop ff now rnd fs s).2 h0)
    · exact Or.inl ((flush_clears_or_noop ff now rnd fs s).1 h0)

/-! ## Claim C6 — the console fallback on any flush I/O error -/

/-- C6. Whenever a flush fails (any stat/open/rotate/write error), the
resulting state has file output disabled (empty directory path), a
console sink installed, the error line followed by the entire unflushed
buffer appended to the console output, and an empty buffer — no buffered
content is silently lost. -/
theorem flushFailure_console_fallback (ff : FlushFaults) (now : String)
    (rnd : List Nat) (fs : FS) (s : LoggerState) (e : String)
    (h : (flush ff now rnd fs s).err = some e) :
    (flush ff now rnd fs s).st.directoryPath = "" ∧
    (flush ff now rnd fs s).st.consoleEnabled = true ∧
    (flush ff now rnd fs s).st.consoleOut =
      s.consoleOut ++ ["failed to write to log file: " ++ e, s.writeBuffer] ∧
    (flush ff now rnd fs s).st.writeBuffer = "" := by
  by_cases h0 : s.writeBuffer = "" ∨ s.directoryPath = ""
  · simp [flush, h0] at h
  · simp only [flush, if_neg h0] at h ⊢
    set w := writeIfUnderMaxFileSize ff.w1 (joinPath s.directoryPath "latest.log")
      s.maxFileSizeBytes fs s.writeBuffer with hwdef
    rcases hw : w.err with _ | e1
    · simp only [hw] at h ⊢
      by_cases ho : w.overflow = true
      · simp only [ho, if_true] at h ⊢
        set r := rotateLogFile ff now rnd s.directoryPath s.maxFileSizeBytes w.fs
          s.writeBuffer with hrdef
        rcases hr : r.err with _ | e2
        · simp only [hr] at h
          simp at h
        · simp only [hr] at h ⊢
          have hb : r.buffer = s.writeBuffer := by
            rcases rotate_buffer_cases ff now rnd s.directoryPath s.maxFileSizeBytes
                w.fs s.writeBuffer with ⟨hn, _⟩ | ⟨_, hb⟩
            · rw [← hrdef] at hn; rw [hr] at hn; simp at hn
            · rw [← hrdef] at hb; exact hb
          simp only [handleFlushError] at h
          simp at h
          subst h
          simp [handleFlushError, hb]
      · simp only [if_neg ho] at h
        simp at h
    · simp only [hw] at h ⊢
      have hb : w.buffer = s.writeBuffer := by
        have := write_err_keeps_buffer ff.w1 (joinPath s.directoryPath "latest.log")
          s.maxFileSizeBytes fs s.writeBuffer
        rw [← hwdef] at this
        exact this (Or.inl (by rw [hw]; rfl))
      simp only [handleFlushError] at h
      simp at h
      subst h
      simp [handleFlushError, hb]

def w6faults : FlushFaults := ⟨⟨some "disk full", none, none⟩, none, none, ⟨none, none, none⟩⟩

def w6state : LoggerState := ⟨some .INFO, 4096, 1024, 15, "d", false, ["old line"], "buffered\n"⟩

theorem flushFailure_console_fallback_witness :
    (flush w6faults "t" [] [] w6state).err =
      some "blog: failed to write to log file: failed to open log file: disk full" ∧
    ((flush w6faults "t" [] [] w6state).st.directoryPath = "" ∧
     (flush w6faults "t" [] [] w6state).st.consoleEnabled = true ∧
     (flush w6faults "t" [] [] w6state).st.consoleOut =
       w6state.consoleOut ++
         ["failed to write to log file: " ++
            "blog: failed to write to log file: failed to open log file: disk full",
          w6state.writeBuffer] ∧
     (flush w6faults "t" [] [] w6state).st.writeBuffer = "") :=
  ⟨by decide,
   flushFailure_console_fallback w6faults "t" [] [] w6state
     "blog: failed to write to log file: failed to open log file: disk full" (by decide)⟩

/-! ## Claim C8 — flush on an empty buffer is a no-op and idempotent -/

/-- C8. With an empty write buffer (or disabled file output) a flush
performs no file I/O (`ops = []`), succeeds (`err = none`), and leaves
the file system and the whole logger state unchanged; running a second
synchronous flush immediately afterwards does the same. -/
theorem emptyFlush_idempotent (ff1 ff2 : FlushFaults) (now1 now2 : String)
    (rnd1 rnd2 : List Nat) (fs : FS) (s : LoggerState)
    (h : s.writeBuffer = "" ∨ s.directoryPath = "") :
    flush ff1 now1 rnd1 fs s = ⟨fs, s, none, []⟩ ∧
    flush ff2 now2 rnd2 (flush ff1 now1 rnd1 fs s).fs (flush ff1 now1 rnd1 fs s).st =
      ⟨fs, s, none, []⟩ := by
  have h1 : flush ff1 now1 rnd1 fs s = ⟨fs, s, none, []⟩ := by simp [flush, h]
  refine ⟨h1, ?_⟩
  rw [h1]
  simp [flush, h]

def w8state : LoggerState := ⟨some .INFO, 4096, 1024, 15, "d", false, [], ""⟩

theorem emptyFlush_idempotent_witness :
    (w8state.writeBuffer = "" ∨ w8state.directoryPath = "") ∧
    (flush noFlushFaults "t" [] [("d/latest.log", "x")] w8state =
       ⟨[("d/latest.log", "x")], w8state, none, []⟩ ∧
     flush noFlushFaults "t" []
         (flush noFlushFaults "t" [] [("d/latest.log", "x")] w8state).fs
         (flush noFlushFaults "t" [] [("d/latest.log", "x")] w8state).st =
       ⟨[("d/latest.log", "x")], w8state, none, []⟩) :=
  ⟨by decide,
   emptyFlush_idempotent noFlushFaults noFlushFaults "t" "t" [] []
     [("d/latest.log", "x")] w8state (by decide)⟩

/-! ## Claim C7 — the rotation boundary -/

/-- C7. For a fault-free flush with a non-empty buffer and file output
enabled: when `latest.log` is under the limit the whole buffer is
appended directly with no rotation; when it is at or over the limit
exactly one rotation happens — `latest.log` is renamed to the
timestamped target and a fresh `latest.log` receives the whole buffer;
and when the fresh file is still at or over the limit immediately after
rotation (`maxFileSizeBytes ≤ 0`, since the fresh file is empty) the
error `"rotated log file is still too large"` is reported and the single
rotation is not retried. -/
theorem rotation_boundary_spec (ff : FlushFaults) (now : String)
    (rnd : List Nat) (fs : FS) (s : LoggerState)
    (hff : ff = noFlushFaults) (hb : s.writeBuffer ≠ "") (hd : s.directoryPath ≠ "")
    (hn1 : now ++ ".log" ≠ "latest.log")
    (hn2 : now ++ "_" ++ randomString rnd ++ ".log" ≠ "latest.log") :
    (((fileContent fs (joinPath s.directoryPath "latest.log")).length : Int) <
        s.maxFileSizeBytes →
      (flush ff now rnd fs s).err = none ∧
      fileContent (flush ff now rnd fs s).fs (joinPath s.directoryPath "latest.log") =
        fileContent fs (joinPath s.directoryPath "latest.log") ++ s.writeBuffer ∧
      (flush ff now rnd fs s).st.writeBuffer = "" ∧
      (flush ff now rnd fs s).ops.count "rename" = 0) ∧
    (((fileContent fs (joinPath s.directoryPath "latest.log")).length : Int) ≥
        s.maxFileSizeBytes ∧ 0 < s.maxFileSizeBytes →
      (flush ff now rnd fs s).err = none ∧
      fileContent (flush ff now rnd fs s).fs (joinPath s.directoryPath "latest.log") =
        s.writeBuffer ∧
      fsLookup (flush ff now rnd fs s).fs (rotTarget now rnd s.directoryPath fs) =
        some (fileContent fs (joinPath s.directoryPath "latest.log")) ∧
      (flush ff now rnd fs s).st.writeBuffer = "" ∧
      (flush ff now rnd fs s).ops.count "rename" = 1) ∧
    (((fileContent fs (joinPath s.directoryPath "latest.log")).length : Int) ≥
        s.maxFileSizeBytes ∧ s.maxFileSizeBytes ≤ 0 →
      (flush ff now rnd fs s).err =
        some "blog: failed to rotate log file: rotated log file is still too large" ∧
      (flush ff now rnd fs s).ops.count "rename" = 1) := by
  subst hff
  have h0 : ¬(s.writeBuffer = "" ∨ s.directoryPath = "") := by
    rintro (h | h)
    · exact hb h
    · exact hd h
  refine ⟨?_, ?_, ?_⟩
  · -- direct write, no rotation
    intro hsz
    have hlt : ¬ (((fileContent (fsCreate fs (joinPath s.directoryPath "latest.log"))
        (joinPath s.directoryPath "latest.log")).length : Int) ≥ s.maxFileSizeBytes) := by
      rw [fileContent_create]
      omega
    have hw : writeIfUnderMaxFileSize noWriteFaults (joinPath s.directoryPath "latest.log")
        s.maxFileSizeBytes fs s.writeBuffer =
        ⟨false, none, fsInsert (fsCreate fs (joinPath s.directoryPath "latest.log"))
           (joinPath s.directoryPath "latest.log")
           (fileContent (fsCreate fs (joinPath s.directoryPath "latest.log"))
             (joinPath s.directoryPath "latest.log") ++ s.writeBuffer),
         "", ["open", "stat", "write"]⟩ := by
      simp only [writeIfUnderMaxFileSize, noWriteFaults]
      rw [if_neg hlt]
    simp only [flush, if_neg h0, noFlushFaults]
    rw [hw]
    simp [fileContent_insert_self, fileContent_create]
  · -- rotation, fresh file under the limit
    rintro ⟨hge, hpos⟩
    rcases hl : fsLookup fs (joinPath s.directoryPath "latest.log") with _ | old
    · exfalso
      have hc0 : fileContent fs (joinPath s.directoryPath "latest.log") = "" := by
        simp [fileContent, hl]
      rw [hc0] at hge
      have h00 : ((("" : String).length : Int)) = 0 := rfl
      rw [h00] at hge
      omega
    · have hold : fileContent fs (joinPath s.directoryPath "latest.log") = old := by
        simp [fileContent, hl]
      have hcr : fsCreate fs (joinPath s.directoryPath "latest.log") = fs := by
        simp [fsCreate, hl]
      have hw : writeIfUnderMaxFileSize noWriteFaults (joinPath s.directoryPath "latest.log")
          s.maxFileSizeBytes fs s.writeBuffer =
          ⟨true, none, fs, s.writeBuffer, ["open", "stat"]⟩ := by
        simp only [writeIfUnderMaxFileSize, noWriteFaults, hcr]
        rw [if_pos hge]
      have hrtne : rotTarget now rnd s.directoryPath fs ≠ joinPath s.directoryPath "latest.log" := by
        unfold rotTarget
        rcases fsLookup fs (joinPath s.directoryPath (now ++ ".log")) with _ | v
        · exact joinPath_inj_right _ _ _ hn1
        · exact joinPath_inj_right _ _ _ hn2
      have hl2 : fsLookup (fsInsert (fsErase fs (joinPath s.directoryPath "latest.log"))
          (rotTarget now rnd s.directoryPath fs) old) (joinPath s.directoryPath "latest.log") = none := by
        rw [fsLookup_insert_ne _ _ _ _ (Ne.symm hrtne)]
        exact fsLookup_erase_self fs _
      have hcr2 : fsCreate (fsInsert (fsErase fs (joinPath s.directoryPath "latest.log"))
            (rotTarget now rnd s.directoryPath fs) old) (joinPath s.directoryPath "latest.log") =
          fsInsert (fsInsert (fsErase fs (joinPath s.directoryPath "latest.log"))
            (rotTarget now rnd s.directoryPath fs) old) (joinPath s.directoryPath "latest.log") "" := by
        simp [fsCreate, hl2]
      have hc2 : fileContent (fsCreate (fsInsert (fsErase fs (joinPath s.directoryPath "latest.log"))
          (rotTarget now rnd s.directoryPath fs) old) (joinPath s.directoryPath "latest.log"))
          (joinPath s.directoryPath "latest.log") = "" := by
        rw [hcr2]
        exact fileContent_insert_self _ _ _
      have hcond2 : ¬ (((fileContent (fsCreate (fsInsert (fsErase fs (joinPath s.directoryPath "latest.log"))
          (rotTarget now rnd s.directoryPath fs) old) (joinPath s.directoryPath "latest.log"))
          (joinPath s.directoryPath "latest.log")).length : Int) ≥ s.maxFileSizeBytes) := by
        rw [hc2]
        have h00 : ((("" : String).length : Int)) = 0 := rfl
        rw [h00]
        omega
      have hw2 : writeIfUnderMaxFileSize noWriteFaults (joinPath s.directoryPath "latest.log")
          s.maxFileSizeBytes (fsInsert (fsErase fs (joinPath s.directoryPath "latest.log"))
            (rotTarget now rnd s.directoryPath fs) old) s.writeBuffer =
          ⟨false, none,
           fsInsert (fsCreate (fsInsert (fsErase fs (joinPath s.directoryPath "latest.log"))
               (rotTarget now rnd s.directoryPath fs) old) (joinPath s.directoryPath "latest.log"))
             (joinPath s.directoryPath "latest.log")
             (fileContent (fsCreate (fsInsert (fsErase fs (joinPath s.directoryPath "latest.log"))
                 (rotTarget now rnd s.directoryPath fs) old) (joinPath s.directoryPath "latest.log"))
               (joinPath s.directoryPath "latest.log") ++ s.writeBuffer),
           "", ["open", "stat", "write"]⟩ := by
        simp only [writeIfUnderMaxFileSize, noWriteFaults]
        rw [if_neg hcond2]
      have hrot : rotateLogFile noFlushFaults now rnd s.directoryPath s.maxFileSizeBytes fs
          s.writeBuffer =
          ⟨none,
           fsInsert (fsCreate (fsInsert (fsErase fs (joinPath s.directoryPath "latest.log"))
               (rotTarget now rnd s.directoryPath fs) old) (joinPath s.directoryPath "latest.log"))
             (joinPath s.directoryPath "latest.log")
             (fileContent (fsCreate (fsInsert (fsErase fs (joinPath s.directoryPath "latest.log"))
                 (rotTarget now rnd s.directoryPath fs) old) (joinPath s.directoryPath "latest.log"))
               (joinPath s.directoryPath "latest.log") ++ s.writeBuffer),
           "", ["rename", "open", "stat", "write"]⟩ := by
        simp only [rotateLogFile, noFlushFaults, rotatedFilename_ok, hl, hw2]
        simp
      simp only [flush, if_neg h0, noFlushFaults]
      rw [hw]
      simp only [noFlushFaults] at hrot
      simp only [eq_self_iff_true, if_true]
      rw [hrot]
      refine ⟨by simp, ?_, ?_, by simp, by simp⟩
      · simp only
        rw [fileContent_insert_self, hc2, str_empty_append]
      · simp only
        rw [fsLookup_insert_ne _ _ _ _ hrtne, hcr2,
            fsLookup_insert_ne _ _ _ _ hrtne, fsLookup_insert_self, hold]
  · -- rotation with the fresh file still at or over the limit
    rintro ⟨hge, hneg⟩
    have hcond1 : ((fileContent (fsCreate fs (joinPath s.directoryPath "latest.log"))
        (joinPath s.directoryPath "latest.log")).length : Int) ≥ s.maxFileSizeBytes := by
      rw [fileContent_create]
      exact hge
    have hw : writeIfUnderMaxFileSize noWriteFaults (joinPath s.directoryPath "latest.log")
        s.maxFileSizeBytes fs s.writeBuffer =
        ⟨true, none, fsCreate fs (joinPath s.directoryPath "latest.log"), s.writeBuffer,
         ["open", "stat"]⟩ := by
      simp only [writeIfUnderMaxFileSize, noWriteFaults]
      rw [if_pos hcond1]
    have hcond2 : ∀ fsx : FS,
        ((fileContent fsx (joinPath s.directoryPath "latest.log")).length : Int) ≥
          s.maxFileSizeBytes := by
      intro fsx
      have : (0 : Int) ≤ ((fileContent fsx (joinPath s.directoryPath "latest.log")).length : Int) := by
        positivity
      omega
    have hw2 : ∀ fsx : FS,
        writeIfUnderMaxFileSize noWriteFaults (joinPath s.directoryPath "latest.log")
          s.maxFileSizeBytes fsx s.writeBuffer =
          ⟨true, none, fsCreate fsx (joinPath s.directoryPath "latest.log"), s.writeBuffer,
           ["open", "stat"]⟩ := by
      intro fsx
      simp only [writeIfUnderMaxFileSize, noWriteFaults]
      rw [if_pos (hcond2 _)]
    have hrot : (rotateLogFile noFlushFaults now rnd s.directoryPath s.maxFileSizeBytes
        (fsCreate fs (joinPath s.directoryPath "latest.log")) s.writeBuffer).err =
          some "rotated log file is still too large" ∧
        (rotateLogFile noFlushFaults now rnd s.directoryPath s.maxFileSizeBytes
          (fsCreate fs (joinPath s.directoryPath "latest.log")) s.writeBuffer).ops =
          ["rename", "open", "stat"] := by
      simp only [rotateLogFile, noFlushFaults, rotatedFilename_ok,
        fsLookup_create_self, hw2]
      simp
    simp only [flush, if_neg h0, noFlushFaults]
    rw [hw]
    simp only [eq_self_iff_true, if_true]
    simp only [noFlushFaults] at hrot
    rw [hrot.1]
    simp only [handleFlushError]
    refine ⟨by simp, ?_⟩
    rw [hrot.2]
    simp

def w7state : LoggerState := ⟨some .INFO, 4096, 2, 15, "d", false, [], "abc"⟩

def w7fs : FS := [("d/latest.log", "xy")]

theorem rotation_boundary_spec_witness :
    noFlushFaults = noFlushFaults ∧
    w7state.writeBuffer ≠ "" ∧
    w7state.directoryPath ≠ "" ∧
    "2025-01-01_00-00-00" ++ ".log" ≠ "latest.log" ∧
    "2025-01-01_00-00-00" ++ "_" ++ randomString eightZeroBytes ++ ".log" ≠ "latest.log" ∧
    ((((fileContent w7fs (joinPath w7state.directoryPath "latest.log")).length : Int) <
        w7state.maxFileSizeBytes →
      (flush noFlushFaults "2025-01-01_00-00-00" eightZeroBytes w7fs w7state).err = none ∧
      fileContent (flush noFlushFaults "2025-01-01_00-00-00" eightZeroBytes w7fs w7state).fs
          (joinPath w7state.directoryPath "latest.log") =
        fileContent w7fs (joinPath w7state.directoryPath "latest.log") ++ w7state.writeBuffer ∧
      (flush noFlushFaults "2025-01-01_00-00-00" eightZeroBytes w7fs w7state).st.writeBuffer = "" ∧
      (flush noFlushFaults "2025-01-01_00-00-00" eightZeroBytes w7fs w7state).ops.count "rename" = 0) ∧
     (((fileContent w7fs (joinPath w7state.directoryPath "latest.log")).length : Int) ≥
        w7state.maxFileSizeBytes ∧ 0 < w7state.maxFileSizeBytes →
      (flush noFlushFaults "2025-01-01_00-00-00" eightZeroBytes w7fs w7state).err = none ∧
      fileContent (flush noFlushFaults "2025-01-01_00-00-00" eightZeroBytes w7fs w7state).fs
          (joinPath w7state.directoryPath "latest.log") = w7state.writeBuffer ∧
      fsLookup (flush noFlushFaults "2025-01-01_00-00-00" eightZeroBytes w7fs w7state).fs
          (rotTarget "2025-01-01_00-00-00" eightZeroBytes w7state.directoryPath w7fs) =
        some (fileContent w7fs (joinPath w7state.directoryPath "latest.log")) ∧
      (flush noFlushFaults "2025-01-01_00-00-00" eightZeroBytes w7fs w7state).st.writeBuffer = "" ∧
      (flush noFlushFaults "2025-01-01_00-00-00" eightZeroBytes w7fs w7state).ops.count "rename" = 1) ∧
     (((fileContent w7fs (joinPath w7state.directoryPath "latest.log")).length : Int) ≥
        w7state.maxFileSizeBytes ∧ w7state.maxFileSizeBytes ≤ 0 →
      (flush noFlushFaults "2025-01-01_00-00-00" eightZeroBytes w7fs w7state).err =
        some "blog: failed to rotate log file: rotated log file is still too large" ∧
      (flush noFlushFaults "2025-01-01_00-00-00" eightZeroBytes w7fs w7state).ops.count "rename" = 1)) :=
  ⟨rfl, by decide, by decide, by decide, by decide,
   rotation_boundary_spec noFlushFaults "2025-01-01_00-00-00" eightZeroBytes w7fs w7state
     rfl (by decide) (by decide) (by decide) (by decide)⟩

def w9cfg : InitConfig := ⟨some .INFO, none, none, none, some "d", some false⟩

def w9update2 : ConfigUpdate := ⟨some .DEBUG, none, none, none, some "", none⟩

def w9okState : LoggerState := ⟨some .INFO, 4096, 1024 * 1024 * 1024, 15, "d", false, [], ""⟩

theorem pathInvariant_amended_witness :
    w9update2.consoleOut = none ∧
    (w9state.directoryPath = "" → w9state.consoleEnabled = true) ∧
    NewLogger statDirs w9cfg = .ok w9okState ∧
    (((setPath statDirs w9state "").1.directoryPath = "" →
        (setPath statDirs w9state "").1.consoleEnabled = true) ∧
     ((fallbackToConsole w9state).directoryPath = "" ∧
      (fallbackToConsole w9state).consoleEnabled = true) ∧
     ((handleSetConfig statDirs w9state w9update2).directoryPath = "" →
        (handleSetConfig statDirs w9state w9update2).consoleEnabled = true) ∧
     (w9okState.directoryPath = "" → w9okState.consoleEnabled = true)) :=
  ⟨rfl, by decide, rfl,
   pathInvariant_amended statDirs w9state "" w9update2 w9cfg w9okState rfl
     (by decide) rfl⟩

end Blog
